import Mathlib

/-!
Verification of the Telegram registration bot (`sayyor_qabul_bot.py`, the
extended variant with the appeal-type step, whose validators are shared
verbatim with `Main/event.py`).

The embedding models:
* `parse_dob` — the regex `\s*(\d{1,2})[. / -](\d{1,2})[. / -](\d{4})\s*`
  fullmatch, the `datetime(y, m, d)` calendar check and the
  `strftime("%d.%m.%Y")` rendering (glibc: `%d`/`%m` zero-padded to two
  digits, `%Y` printed as an unpadded decimal — years below 1000 are NOT
  zero-padded on the Linux platform the bot runs on);
* the free-text phone check `re.fullmatch(r"[+]?[\d][\d\s-]{6,}", txt)`;
* the conversation state machine of the handlers (`choose_lang`,
  `choose_region`, `choose_mode`, `full_name`, `dob`, `district`,
  `contact`, `choose_atype`, `content`, `confirm`, `cancel`) as a pure
  step function over an explicit session record, emitting the observable
  side effects (replies, message edits, CSV `save_row`, the Google-Sheets
  mirror call `try_gs_save_row`, `notify_admins`) as data.

Character classes (`\d`, `\s`, `str.strip`) are modelled by their ASCII
subsets; the source operates on Python `str`, where these classes also
admit non-ASCII code points that none of the specified behaviour relies
on.
-/

namespace SayyorBot

/-! ## Character classes (ASCII subsets of the Python regex classes) -/

/-- ASCII subset of Python regex `\d`: the characters `'0'`..`'9'`. -/
def isDigitChar (c : Char) : Bool := 48 ≤ c.toNat && c.toNat ≤ 57

/-- ASCII subset of Python regex `\s` (and of `str.strip`):
space, tab, newline, vertical tab, form feed, carriage return. -/
def isSpaceChar (c : Char) : Bool := c.toNat = 32 || (9 ≤ c.toNat && c.toNat ≤ 13)

/-- The date-separator class `[. / -]` of the `parse_dob` regex
(code points 46, 47, 45). -/
def isSepChar (c : Char) : Bool := c.toNat = 46 || c.toNat = 47 || c.toNat = 45

/-- Numeric value of a decimal digit character. -/
def digitVal (c : Char) : Nat := c.toNat - 48

/-- Python `int()` on a (non-empty, all-digit) decimal string,
most significant digit first. -/
def digitsToNat (ds : List Char) : Nat := ds.foldl (fun n c => 10 * n + digitVal c) 0

/-- Python `str.strip()` (ASCII whitespace subset). -/
def pyStrip (cs : List Char) : List Char :=
  ((cs.dropWhile isSpaceChar).reverse.dropWhile isSpaceChar).reverse

/-! ## Decimal rendering (Python `int` formatting / C `strftime`) -/

/-- Fueled decimal rendering core, most significant digit first.
Structured like core Lean's own fuel-based decimal printer so that it
reduces in the kernel; `decChars` always supplies enough fuel. -/
def decCharsAux : Nat → Nat → List Char
  | 0, _ => []
  | fuel + 1, n =>
    if n < 10 then [Nat.digitChar n]
    else decCharsAux fuel (n / 10) ++ [Nat.digitChar (n % 10)]

/-- Decimal rendering of a natural number, no padding — the rendering of
glibc `strftime` `%Y` (which does not zero-pad years below 1000). -/
def decChars (n : Nat) : List Char := decCharsAux (n + 1) n

/-- `strftime` `%d` / `%m`: decimal, zero-padded to (at least) width 2. -/
def pad2 (n : Nat) : List Char := if n < 10 then '0' :: decChars n else decChars n

/-! ## The date parser `parse_dob` -/

/-- Month/year tail of the regex match: after the first separator,
`(\d{1,2})[. / -](\d{4})\s*` up to the end of the string. `r2` is the
remainder of the input after the first separator. -/
def dobMonthYear (r2 : List Char) : Option (Nat × Nat) :=
  match r2.dropWhile isDigitChar with
  | [] => none
  | s2 :: r4 =>
    if 1 ≤ (r2.takeWhile isDigitChar).length ∧ (r2.takeWhile isDigitChar).length ≤ 2
        ∧ isSepChar s2 = true ∧ (r4.takeWhile isDigitChar).length = 4
        ∧ (r4.dropWhile isDigitChar).all isSpaceChar = true then
      some (digitsToNat (r2.takeWhile isDigitChar), digitsToNat (r4.takeWhile isDigitChar))
    else none

/-- `re.fullmatch(r"\s*(\d{1,2})[. / -](\d{1,2})[. / -](\d{4})\s*", text)`,
returning the three captured groups through `int()`. The regex is
deterministic: maximal runs of digits must have the required lengths and
be followed by a separator (backtracking inside a digit run can never
succeed because a digit is neither a separator nor whitespace). -/
def dobMatch (cs : List Char) : Option (Nat × Nat × Nat) :=
  match (cs.dropWhile isSpaceChar).dropWhile isDigitChar with
  | [] => none
  | s1 :: r2 =>
    if 1 ≤ ((cs.dropWhile isSpaceChar).takeWhile isDigitChar).length
        ∧ ((cs.dropWhile isSpaceChar).takeWhile isDigitChar).length ≤ 2
        ∧ isSepChar s1 = true then
      match dobMonthYear r2 with
      | some (m, y) => some (digitsToNat ((cs.dropWhile isSpaceChar).takeWhile isDigitChar), m, y)
      | none => none
    else none

/-- Gregorian leap year, as implemented by Python `datetime`. -/
def isLeapYear (y : Nat) : Bool := y % 4 = 0 && (y % 100 ≠ 0 || y % 400 = 0)

/-- Days in a month, as implemented by Python `datetime`. -/
def daysInMonth (y m : Nat) : Nat :=
  if m = 2 then (if isLeapYear y then 29 else 28)
  else if m = 4 ∨ m = 6 ∨ m = 9 ∨ m = 11 then 30
  else 31

/-- The constructor check of `datetime(y, mth, d)`: year in
`MINYEAR..MAXYEAR` = `1..9999`, month `1..12`, day `1..days_in_month`.
A `(y, m, d)` passing this check is exactly a real (proleptic Gregorian)
calendar date within Python's representable range. -/
def datetimeValid (y m d : Nat) : Bool :=
  1 ≤ y && y ≤ 9999 && 1 ≤ m && m ≤ 12 && 1 ≤ d && d ≤ daysInMonth y m

/-- `parse_dob` (identical in both source files): regex fullmatch, then
`datetime(y, mth, d)` (rejecting non-dates via `ValueError`), then
`dt.strftime("%d.%m.%Y")`; returns `""` on any failure. -/
def parse_dob (text : String) : String :=
  match dobMatch text.data with
  | none => ""
  | some (d, m, y) =>
    if datetimeValid y m d then
      String.mk (pad2 d ++ ('.' :: (pad2 m ++ ('.' :: decChars y))))
    else ""

/-! ## The free-text phone check -/

/-- The trailing class `[\d\s-]` of the phone regex. -/
def isPhoneTailChar (c : Char) : Bool := isDigitChar c || isSpaceChar c || c.toNat = 45

/-- `[\d][\d\s-]{6,}` against the whole remaining input. -/
def phoneCoreMatch : List Char → Bool
  | [] => false
  | c :: t => isDigitChar c && decide (6 ≤ t.length) && t.all isPhoneTailChar

/-- `re.fullmatch(r"[+]?[\d][\d\s-]{6,}", txt)`: an optional leading `+`
(which, if present, must be followed by a full core match — backtracking
to the empty alternative can never help since `+` is not a digit). -/
def phoneFullmatch (cs : List Char) : Bool :=
  match cs with
  | [] => false
  | c :: t => if c = '+' then phoneCoreMatch t else phoneCoreMatch (c :: t)

/-- The free-text branch of the `contact` handler: strip, then fullmatch. -/
def phoneAccepts (t : String) : Bool := phoneFullmatch (pyStrip t.data)

/-! ## The claimed input shape of the date parser (for C1 comparison) -/

/-- Side conditions of the claimed acceptable shape: leading/trailing
whitespace, 1-2 digit day, separator, 1-2 digit month, separator, 4-digit
year, and the extracted (year, month, day) a real calendar date. -/
def dobShapeParts (ws1 ds : List Char) (s1 : Char) (ms : List Char) (s2 : Char)
    (ys ws2 : List Char) : Bool :=
  ws1.all isSpaceChar && ds.all isDigitChar
    && decide (1 ≤ ds.length) && decide (ds.length ≤ 2)
    && isSepChar s1 && ms.all isDigitChar
    && decide (1 ≤ ms.length) && decide (ms.length ≤ 2)
    && isSepChar s2 && ys.all isDigitChar && decide (ys.length = 4)
    && ws2.all isSpaceChar
    && datetimeValid (digitsToNat ys) (digitsToNat ms) (digitsToNat ds)

/-- The shape claim C1 says `parse_dob` accepts (and nothing else). -/
def ClaimDobShape (s : String) : Prop :=
  ∃ ws1 ds s1 ms s2 ys ws2,
    s.data = ws1 ++ ds ++ (s1 :: (ms ++ (s2 :: (ys ++ ws2))))
      ∧ dobShapeParts ws1 ds s1 ms s2 ys ws2 = true

/-- Zero-padded 4-character year rendering, as the claimed canonical
`dd.mm.yyyy` output format demands for the `yyyy` part. -/
def pad4 (n : Nat) : List Char :=
  if n < 10 then '0' :: '0' :: '0' :: decChars n
  else if n < 100 then '0' :: '0' :: decChars n
  else if n < 1000 then '0' :: decChars n
  else decChars n

/-- Modelled from the claim's words: the canonical `dd.mm.yyyy` rendering
with zero-padded day, month (and a 4-character year field). -/
def claimCanonical (d m y : Nat) : String :=
  String.mk (pad2 d ++ ('.' :: (pad2 m ++ ('.' :: pad4 y))))

/-! ## The claimed phone grammar (for C2 comparison) -/

/-- Modelled from the spec's words: "digits, spaces, or hyphens". -/
def claimTailChar (c : Char) : Bool := isDigitChar c || c = ' ' || c = '-'

/-- Modelled from the spec: accept a trimmed string made of an optional
leading `+`, one digit, then digits/spaces/hyphens, "with a minimum total
matched length of 7 characters" (the total including the `+`). -/
def claimPhoneAccepts (t : String) : Bool :=
  decide (7 ≤ (pyStrip t.data).length) &&
  match pyStrip t.data with
  | '+' :: c :: r => isDigitChar c && r.all claimTailChar
  | c :: r => isDigitChar c && r.all claimTailChar
  | [] => false

/-! ## Dialogue state machine (extended variant `sayyor_qabul_bot.py`) -/

/-- The `context.user_data` dictionary: one session per chat, every field
absent until its step's handler stores it. -/
structure Session where
  lang : Option String := none
  region : Option String := none
  mode : Option String := none
  full_name : Option String := none
  dob : Option String := none
  district : Option String := none
  phone : Option String := none
  appeal_type : Option String := none
  content : Option String := none
deriving DecidableEq, Repr

/-- `ConversationHandler` states (source order), plus the terminal
`ConversationHandler.END`. -/
inductive BotState
  | LANG
  | REGION
  | MODE
  | NAME
  | DOB
  | DISTRICT
  | CONTACT
  | ATYPE
  | CONTENT
  | CONFIRM
  | END
deriving DecidableEq, Repr

/-- Inbound transport events. `textMsg` is a non-command text message
(`filters.TEXT & ~filters.COMMAND`); the two registered commands appear
as their own events and reach the conversation through the entry point
(`/start`, with `allow_reentry=True`) or the fallback (`/cancel`). -/
inductive Event
  | startCmd
  | cancelCmd
  | textMsg (t : String)
  | contactShared (phoneNumber : String)
  | buttonPressed (data : String)
deriving DecidableEq, Repr

/-- The row dictionary built in `confirm` and handed to both sinks. -/
structure Row where
  timestamp : String
  lang : String
  user_id : Nat
  full_name : Option String
  dob : Option String
  region : Option String
  district : Option String
  mode : Option String
  phone : Option String
  appeal_type : Option String
  content : Option String
deriving DecidableEq, Repr

/-- Observable side effects of one handler invocation, in program order.
Keyboards/markup attached to a reply are elided; only the text matters to
the specified behaviour. `saveRow` is the primary CSV sink `save_row`,
`gsSaveRow` the mirror call `try_gs_save_row`, `notifyAdmins` the
operator broadcast. -/
inductive Effect
  | answerCallback
  | reply (text : String)
  | editMessage (text : String)
  | saveRow (r : Row)
  | gsSaveRow (sheet : String) (r : Row)
  | notifyAdmins (text : String)
deriving DecidableEq, Repr

/-- Ambient inputs of a handler invocation: the UTC timestamp rendering,
the callback sender id, `GOOGLE_SHEETS_NAME` (defaulted "SayyorQabul"),
and the string returned by the mirror call `try_gs_save_row`. That
function wraps all remote work in a catch-all `except Exception` and
always returns a string — `""` on success, the exception text on failure
— so its outcome enters the model as data, never as a raised error. -/
structure Env where
  now : String
  userId : Nat
  sheetsName : String
  gsResult : String
deriving DecidableEq, Repr

/-! ### Localized texts (PROMPTS and inline literals of the handlers) -/

def promptRegion (lang : String) : String :=
  if lang = "uz" then "Iltimos, yashash hududingizni tanlang:"
  else "Пожалуйста, выберите ваш регион проживания:"

def promptMode (lang : String) : String :=
  if lang = "uz" then "Qabul shaklini tanlang:" else "Выберите форму участия:"

def promptName (lang : String) : String :=
  if lang = "uz" then "To'liq ism-sharifingizni kiriting:"
  else "Введите ваше полное имя:"

def promptDob (lang : String) : String :=
  if lang = "uz" then "Tug'ilgan sanangiz (dd.mm.yyyy, masalan 07.09.1999):"
  else "Дата рождения (дд.мм.гггг, например 07.09.1999):"

def promptDistrict (lang : String) : String :=
  if lang = "uz" then "Yashash tumani/shahri:" else "Район/город проживания:"

def promptContact (lang : String) : String :=
  if lang = "uz" then "Telefon raqamingizni yuboring (tugma orqali):"
  else "Отправьте ваш номер телефона (через кнопку):"

def promptAtype (lang : String) : String :=
  if lang = "uz" then "Murojaatingiz turini tanlang:" else "Выберите тип вашего обращения:"

def promptContent (lang : String) : String :=
  if lang = "uz" then "Murojaat mazmuni (qisqacha va aniq):"
  else "Кратко опишите суть обращения:"

def promptConfirm (lang : String) : String :=
  if lang = "uz" then "Ma'lumotlaringizni tasdiqlaysizmi?"
  else "Подтвердить ваши данные?"

def thanksText (lang : String) : String :=
  if lang = "uz" then
    "Hurmatli fuqaro, murojaat qilganingiz uchun katta rahmat. Murojaatda siz ilgari surgan taklif va tavsiyalar biz uchun nihoyatda muhimdir."
  else
    "Уважаемый(ая) заявитель, благодарим вас за обращение. Предложенные вами идеи и рекомендации крайне важны для нас."

def errDob (lang : String) : String :=
  if lang = "uz" then "Noto'g'ri sana formati. dd.mm.yyyy yuboring."
  else "Неверный формат даты. Используйте дд.мм.гггг."

def errContact (lang : String) : String :=
  if lang = "uz" then "Iltimos, tugma orqali yuboring yoki +998… formatida yozing."
  else "Пожалуйста, отправьте через кнопку или в формате +998…"

def cancelText (lang : String) : String :=
  if lang = "uz" then "Bekor qilindi." else "Отменено."

def noteText (lang : String) : String :=
  if lang = "uz" then "✅ Yangi ro‘yxatdan o‘tish:" else "✅ Новая регистрация:"

def welcomeText : String :=
  "Assalomu alaykum!\n\nMarkaziy bank xodimlari bilan o'tkaziladigan «Ochiq muloqot» platformasiga xush kelibsiz!\nSizning fikr va takliflaringiz — moliyaviy xizmatlarni yanada qulay va samarali qilishda muhim.\nIltimos, quyidagi qadamlarni bosqichma-bosqich bajaring."
    ++ "\n\n"
    ++ "Ассалому алайкум!\nДобро пожаловать на платформу «Открытый диалог», проводимую с участием сотрудников Центрального банка!\nВаши мнения и предложения важны для того, чтобы сделать финансовые услуги ещё удобнее и эффективнее.\nПожалуйста, выполните шаги ниже по порядку."
    ++ "\n\n"
    ++ "Iltimos, tilni tanlang / Пожалуйста, выберите язык:"

/-- Python string interpolation of an optional value (`None` → "None"). -/
def pyShow (o : Option String) : String :=
  match o with
  | none => "None"
  | some v => v

/-- `format_summary(lang, ud)`. -/
def format_summary (lang : String) (ud : Session) : String :=
  "\n— Til/Язык: " ++ (if lang = "uz" then "O‘zbekcha" else "Русский") ++
  "\n— Hudud/Регион: " ++ pyShow ud.region ++
  "\n— Shakl/Формат: " ++ (if ud.mode = some "offline" then "Offline" else "Online") ++
  "\n— F.I.Sh/Ф.И.О.: " ++ pyShow ud.full_name ++
  "\n— Tug'ilgan sana/Дата рождения: " ++ pyShow ud.dob ++
  "\n— Tuman/Rayon: " ++ pyShow ud.district ++
  "\n— Telefon/Телефон: " ++ pyShow ud.phone ++
  "\n— Murojaat turi/Тип обращения: " ++ pyShow ud.appeal_type ++
  "\n— Murojaat/Обращение: " ++ pyShow ud.content ++ "\n"

/-- The row dictionary built at confirmation-accept. -/
def mkRow (env : Env) (lang : String) (ud : Session) : Row :=
  { timestamp := env.now
    lang := lang
    user_id := env.userId
    full_name := ud.full_name
    dob := ud.dob
    region := ud.region
    district := ud.district
    mode := ud.mode
    phone := ud.phone
    appeal_type := ud.appeal_type
    content := ud.content }

/-- Python `data.split("|", 1)` when a separator occurs: the part before
the first separator and everything after it (`none` when absent — in the
source that raises `ValueError`, but every dispatching pattern already
guarantees a separator). -/
def splitOnce (sep : Char) : List Char → Option (List Char × List Char)
  | [] => none
  | c :: t =>
    if c = sep then some ([], t)
    else
      match splitOnce sep t with
      | none => none
      | some (a, b) => some (c :: a, b)

/-- The `^literal` pattern test of a `CallbackQueryHandler`. -/
def hasLit (pat : List Char) (data : List Char) : Bool := pat.isPrefixOf data

namespace Handlers

/-- `start`: send the welcome text, enter LANG (`allow_reentry=True`
lets it also fire mid-conversation; `user_data` is not cleared). -/
def start (s : Session) : BotState × Session × List Effect :=
  (.LANG, s, [.reply welcomeText])

/-- `choose_lang`: `lang = "uz" if q.data == "lang_uz" else "ru"`. -/
def choose_lang (data : String) (s : Session) : BotState × Session × List Effect :=
  let lang := if data = "lang_uz" then "uz" else "ru"
  (.REGION, { s with lang := some lang },
    [.answerCallback, .editMessage (promptRegion lang)])

/-- `choose_region`. (The source reads `user_data["lang"]` directly; the
key is always present because REGION is only reachable after
`choose_lang`, so the default here is unobservable.) -/
def choose_region (data : String) (s : Session) : BotState × Session × List Effect :=
  match splitOnce '|' data.data with
  | none => (.REGION, s, [.answerCallback])
  | some (_, name) =>
    (.MODE, { s with region := some (String.mk name) },
      [.answerCallback, .editMessage (promptMode (s.lang.getD "uz"))])

/-- `choose_mode`. -/
def choose_mode (data : String) (s : Session) : BotState × Session × List Effect :=
  match splitOnce '|' data.data with
  | none => (.MODE, s, [.answerCallback])
  | some (_, mode) =>
    (.NAME, { s with mode := some (String.mk mode) },
      [.answerCallback, .editMessage (promptName (s.lang.getD "uz"))])

/-- `full_name`: stores the stripped text. -/
def full_name (t : String) (s : Session) : BotState × Session × List Effect :=
  (.DOB, { s with full_name := some (String.mk (pyStrip t.data)) },
    [.reply (promptDob (s.lang.getD "uz"))])

/-- `dob`: validates with `parse_dob`; on failure re-prompts and stays. -/
def dob (t : String) (s : Session) : BotState × Session × List Effect :=
  if parse_dob t = "" then (.DOB, s, [.reply (errDob (s.lang.getD "uz"))])
  else
    (.DISTRICT, { s with dob := some (parse_dob t) },
      [.reply (promptDistrict (s.lang.getD "uz"))])

/-- `district`: stores the stripped text, requests the phone. -/
def district (t : String) (s : Session) : BotState × Session × List Effect :=
  (.CONTACT, { s with district := some (String.mk (pyStrip t.data)) },
    [.reply (promptContact (s.lang.getD "uz"))])

/-- `contact`: a structured contact-share with a (truthy, i.e. non-empty)
number is taken verbatim; otherwise the stripped free text must pass the
phone regex; on failure re-prompts and stays. -/
def contact (ev : Event) (s : Session) : BotState × Session × List Effect :=
  let phone : Option String :=
    match ev with
    | .contactShared p => if p ≠ "" then some p else none
    | .textMsg t =>
      if phoneFullmatch (pyStrip t.data) then some (String.mk (pyStrip t.data)) else none
    | _ => none
  match phone with
  | none => (.CONTACT, s, [.reply (errContact (s.lang.getD "uz"))])
  | some p =>
    (.ATYPE, { s with phone := some p }, [.reply (promptAtype (s.lang.getD "uz"))])

/-- `choose_atype`. -/
def choose_atype (data : String) (s : Session) : BotState × Session × List Effect :=
  match splitOnce '|' data.data with
  | none => (.ATYPE, s, [.answerCallback])
  | some (_, atype) =>
    (.CONTENT, { s with appeal_type := some (String.mk atype) },
      [.answerCallback, .editMessage (promptContent (s.lang.getD "uz"))])

/-- `content`: stores the stripped text, renders the summary (from the
already-updated session) and asks for confirmation. -/
def content (t : String) (s : Session) : BotState × Session × List Effect :=
  (.CONFIRM, { s with content := some (String.mk (pyStrip t.data)) },
    [.reply (promptConfirm (s.lang.getD "uz") ++ "\n"
      ++ format_summary (s.lang.getD "uz") { s with content := some (String.mk (pyStrip t.data)) })])

/-- `confirm`: `_, val = q.data.split("|", 1)`; the exact value "no"
returns to REGION; ANY other value takes the acceptance branch — build
the row, `save_row`, `try_gs_save_row`, `notify_admins` (with the
Sheets diagnostic appended when non-empty), thank-you. -/
def confirm (env : Env) (data : String) (s : Session) : BotState × Session × List Effect :=
  match splitOnce '|' data.data with
  | none => (.CONFIRM, s, [.answerCallback])
  | some (_, val) =>
    if val = "no".data then
      (.REGION, s, [.answerCallback, .editMessage (promptRegion (s.lang.getD "uz"))])
    else
      (.END, s,
        [.answerCallback,
         .saveRow (mkRow env (s.lang.getD "uz") s),
         .gsSaveRow env.sheetsName (mkRow env (s.lang.getD "uz") s),
         .notifyAdmins (noteText (s.lang.getD "uz") ++ format_summary (s.lang.getD "uz") s
           ++ (if env.gsResult = "" then "" else "\n⚠️ Sheets: " ++ env.gsResult)),
         .editMessage (thanksText (s.lang.getD "uz"))])

/-- `cancel` (the fallback): localized "cancelled" reply, conversation
ends; no sink or notifier is touched. -/
def cancel (s : Session) : BotState × Session × List Effect :=
  (.END, s, [.reply (cancelText (s.lang.getD "uz"))])

end Handlers

/-- One inbound event processed by the `ConversationHandler`: commands go
to the entry point / fallback, other events to the state's registered
handler if its pattern/filter matches; unmatched events are dropped.
After END the conversation is over and nothing fires. -/
def step (env : Env) (st : BotState) (s : Session) (ev : Event) :
    BotState × Session × List Effect :=
  if st = .END then (st, s, [])
  else
    match ev with
    | .startCmd => Handlers.start s
    | .cancelCmd => Handlers.cancel s
    | _ =>
      match st, ev with
      | .LANG, .buttonPressed data =>
        if hasLit "lang_".data data.data then Handlers.choose_lang data s else (st, s, [])
      | .REGION, .buttonPressed data =>
        if hasLit "reg|".data data.data then Handlers.choose_region data s else (st, s, [])
      | .MODE, .buttonPressed data =>
        if hasLit "mode|".data data.data then Handlers.choose_mode data s else (st, s, [])
      | .NAME, .textMsg t => Handlers.full_name t s
      | .DOB, .textMsg t => Handlers.dob t s
      | .DISTRICT, .textMsg t => Handlers.district t s
      | .CONTACT, .textMsg t => Handlers.contact (.textMsg t) s
      | .CONTACT, .contactShared p => Handlers.contact (.contactShared p) s
      | .ATYPE, .buttonPressed data =>
        if hasLit "atype|".data data.data then Handlers.choose_atype data s else (st, s, [])
      | .CONTENT, .textMsg t => Handlers.content t s
      | .CONFIRM, .buttonPressed data =>
        if hasLit "confirm|".data data.data then Handlers.confirm env data s else (st, s, [])
      | st2, _ => (st2, s, [])

/-- Fold a list of free-text messages through the machine (to state that
invalid input can be resubmitted indefinitely with no retry limit). -/
def runTexts (env : Env) : BotState × Session → List String → BotState × Session
  | p, [] => p
  | p, t :: ts =>
    runTexts env ((step env p.1 p.2 (.textMsg t)).1, (step env p.1 p.2 (.textMsg t)).2.1) ts

/-- A concrete environment for witness instantiations. -/
def envEx : Env :=
  { now := "2024-01-01 00:00:00", userId := 7, sheetsName := "SayyorQabul", gsResult := "" }

/-! ## Character-class facts -/

theorem not_space_of_digit {c : Char} (h : isDigitChar c = true) : isSpaceChar c = false := by
  simp only [isDigitChar, Bool.and_eq_true, decide_eq_true_eq] at h
  simp only [isSpaceChar, Bool.or_eq_false_iff, Bool.and_eq_false_iff,
    decide_eq_false_iff_not]
  omega

theorem not_digit_of_space {c : Char} (h : isSpaceChar c = true) : isDigitChar c = false := by
  simp only [isSpaceChar, Bool.or_eq_true, Bool.and_eq_true, decide_eq_true_eq] at h
  simp only [isDigitChar, Bool.and_eq_false_iff, decide_eq_false_iff_not]
  omega

theorem not_digit_of_sep {c : Char} (h : isSepChar c = true) : isDigitChar c = false := by
  simp only [isSepChar, Bool.or_eq_true, decide_eq_true_eq] at h
  simp only [isDigitChar, Bool.and_eq_false_iff, decide_eq_false_iff_not]
  omega

/-! ## `takeWhile` / `dropWhile` decomposition -/

theorem dropWhile_append_of_all {p : Char → Bool} {l r : List Char} (h : l.all p = true) :
    (l ++ r).dropWhile p = r.dropWhile p := by
  induction l with
  | nil => rfl
  | cons a t ih =>
    simp only [List.all_cons, Bool.and_eq_true] at h
    simp [List.dropWhile_cons, h.1, ih h.2]

theorem takeWhile_append_stop {p : Char → Bool} {l : List Char} {c : Char} {t : List Char}
    (hl : l.all p = true) (hc : p c = false) :
    (l ++ c :: t).takeWhile p = l ∧ (l ++ c :: t).dropWhile p = c :: t := by
  induction l with
  | nil => simp [List.takeWhile_cons, List.dropWhile_cons, hc]
  | cons a l ih =>
    simp only [List.all_cons, Bool.and_eq_true] at hl
    have := ih hl.2
    simp [List.takeWhile_cons, List.dropWhile_cons, hl.1, this.1, this.2]

theorem takeWhile_of_all {p : Char → Bool} {l : List Char} (h : l.all p = true) :
    l.takeWhile p = l ∧ l.dropWhile p = [] := by
  induction l with
  | nil => simp
  | cons a l ih =>
    simp only [List.all_cons, Bool.and_eq_true] at h
    simp [List.takeWhile_cons, List.dropWhile_cons, h.1, (ih h.2).1, (ih h.2).2]

theorem all_of_takeWhile (p : Char → Bool) (l : List Char) :
    (l.takeWhile p).all p = true := by
  induction l with
  | nil => simp
  | cons a l ih =>
    by_cases h : p a = true
    · simp [List.takeWhile_cons, h, ih]
    · simp only [Bool.not_eq_true] at h
      simp [List.takeWhile_cons, h]

/-- A run of digits followed by (possibly empty) whitespace splits cleanly. -/
theorem takeDrop_digits_then_spaces {ys ws2 : List Char} (hys : ys.all isDigitChar = true)
    (hws2 : ws2.all isSpaceChar = true) :
    (ys ++ ws2).takeWhile isDigitChar = ys ∧ (ys ++ ws2).dropWhile isDigitChar = ws2 := by
  cases ws2 with
  | nil => simpa using takeWhile_of_all hys
  | cons w ws' =>
    have hw : isSpaceChar w = true := by
      simp only [List.all_cons, Bool.and_eq_true] at hws2; exact hws2.1
    exact takeWhile_append_stop hys (not_digit_of_space hw)

/-! ## Decimal rendering facts -/

theorem decCharsAux_congr : ∀ (f1 f2 n : Nat), n < f1 → n < f2 →
    decCharsAux f1 n = decCharsAux f2 n
  | f1 + 1, f2 + 1, n, h1, h2 => by
    simp only [decCharsAux]
    split
    · rfl
    · rename_i hn
      have hlt : n / 10 < n := Nat.div_lt_self (by omega) (by omega)
      rw [decCharsAux_congr f1 f2 (n / 10) (by omega) (by omega)]

theorem decChars_lt10 {n : Nat} (h : n < 10) : decChars n = [Nat.digitChar n] := by
  simp [decChars, decCharsAux, h]

theorem decChars_ge10 {n : Nat} (h : 10 ≤ n) :
    decChars n = decChars (n / 10) ++ [Nat.digitChar (n % 10)] := by
  have hlt : n / 10 < n := Nat.div_lt_self (by omega) (by omega)
  show decCharsAux (n + 1) n = _
  simp only [decCharsAux, if_neg (by omega : ¬ n < 10)]
  rw [decCharsAux_congr n (n / 10 + 1) (n / 10) (by omega) (by omega)]
  rfl

theorem digitChar_isDigit {n : Nat} (h : n < 10) : isDigitChar (Nat.digitChar n) = true := by
  interval_cases n <;> decide

theorem digitVal_digitChar {n : Nat} (h : n < 10) : digitVal (Nat.digitChar n) = n := by
  interval_cases n <;> decide

theorem decChars_all_digit (n : Nat) : (decChars n).all isDigitChar = true := by
  induction n using Nat.strong_induction_on with
  | _ n ih =>
    by_cases h : n < 10
    · rw [decChars_lt10 h]; simp [digitChar_isDigit h]
    · rw [decChars_ge10 (by omega)]
      have h1 := ih (n / 10) (Nat.div_lt_self (by omega) (by omega))
      have h2 := digitChar_isDigit (Nat.mod_lt n (by omega : 0 < 10))
      simp [List.all_append, h1, h2]

theorem digitsToNat_snoc (l : List Char) (c : Char) :
    digitsToNat (l ++ [c]) = 10 * digitsToNat l + digitVal c := by
  simp [digitsToNat, List.foldl_append]

theorem digitsToNat_decChars (n : Nat) : digitsToNat (decChars n) = n := by
  induction n using Nat.strong_induction_on with
  | _ n ih =>
    by_cases h : n < 10
    · rw [decChars_lt10 h]
      show 10 * 0 + digitVal (Nat.digitChar n) = n
      rw [digitVal_digitChar h]
      omega
    · rw [decChars_ge10 (by omega), digitsToNat_snoc,
        ih (n / 10) (Nat.div_lt_self (by omega) (by omega)),
        digitVal_digitChar (Nat.mod_lt n (by omega : 0 < 10))]
      omega

theorem decChars_length : ∀ (k n : Nat), 10 ^ k ≤ n → n < 10 ^ (k + 1) →
    (decChars n).length = k + 1
  | 0, n, _, h2 => by
    rw [decChars_lt10 (by simpa using h2)]; rfl
  | k + 1, n, h1, h2 => by
    have hpow : (10 : ℕ) ≤ 10 ^ (k + 1) := by
      calc (10 : ℕ) = 10 ^ 1 := (pow_one 10).symm
        _ ≤ 10 ^ (k + 1) := Nat.pow_le_pow_right (by omega) (by omega)
    have h10 : 10 ≤ n := le_trans hpow h1
    rw [decChars_ge10 h10]
    have hlo : 10 ^ k ≤ n / 10 :=
      (Nat.le_div_iff_mul_le (by omega)).2 (by rw [← pow_succ]; exact h1)
    have hhi : n / 10 < 10 ^ (k + 1) :=
      (Nat.div_lt_iff_lt_mul (by omega)).2 (by rw [← pow_succ]; exact h2)
    simp [decChars_length k (n / 10) hlo hhi]

theorem digitsToNat_cons_zero (l : List Char) : digitsToNat ('0' :: l) = digitsToNat l := by
  simp [digitsToNat, List.foldl_cons]
  rfl

theorem pad2_all_digit (n : Nat) : (pad2 n).all isDigitChar = true := by
  unfold pad2
  split
  · simp [decChars_all_digit]
    decide
  · exact decChars_all_digit n

theorem pad2_length {n : Nat} (h : n < 100) : (pad2 n).length = 2 := by
  unfold pad2
  split
  · rename_i hn
    rw [decChars_lt10 hn]; rfl
  · rename_i hn
    exact decChars_length 1 n (by omega) (by norm_num; omega)

theorem digitsToNat_pad2 (n : Nat) : digitsToNat (pad2 n) = n := by
  unfold pad2
  split
  · rw [digitsToNat_cons_zero, digitsToNat_decChars]
  · exact digitsToNat_decChars n

/-! ## The regex match on decomposed input -/

theorem dobMonthYear_parts {ms : List Char} {s2 : Char} {ys ws2 : List Char}
    (hms : ms.all isDigitChar = true) (hms1 : 1 ≤ ms.length) (hms2 : ms.length ≤ 2)
    (hs2 : isSepChar s2 = true) (hys : ys.all isDigitChar = true) (hysl : ys.length = 4)
    (hws2 : ws2.all isSpaceChar = true) :
    dobMonthYear (ms ++ (s2 :: (ys ++ ws2))) = some (digitsToNat ms, digitsToNat ys) := by
  have hsplit := @takeWhile_append_stop isDigitChar ms s2 (ys ++ ws2) hms (not_digit_of_sep hs2)
  have hyd := takeDrop_digits_then_spaces hys hws2
  simp only [dobMonthYear, hsplit.1, hsplit.2, hyd.1, hyd.2]
  simp [hms1, hms2, hs2, hysl, hws2]

theorem dobMatch_parts {ws1 ds : List Char} {s1 : Char} {ms : List Char} {s2 : Char}
    {ys ws2 : List Char}
    (hws1 : ws1.all isSpaceChar = true) (hds : ds.all isDigitChar = true)
    (hds1 : 1 ≤ ds.length) (hds2 : ds.length ≤ 2) (hs1 : isSepChar s1 = true)
    (hms : ms.all isDigitChar = true) (hms1 : 1 ≤ ms.length) (hms2 : ms.length ≤ 2)
    (hs2 : isSepChar s2 = true) (hys : ys.all isDigitChar = true) (hysl : ys.length = 4)
    (hws2 : ws2.all isSpaceChar = true) :
    dobMatch (ws1 ++ ds ++ (s1 :: (ms ++ (s2 :: (ys ++ ws2))))) =
      some (digitsToNat ds, digitsToNat ms, digitsToNat ys) := by
  obtain ⟨d0, ds', rfl⟩ : ∃ d0 ds', ds = d0 :: ds' := by
    cases ds with
    | nil => simp at hds1
    | cons a b => exact ⟨a, b, rfl⟩
  have hd0 : isDigitChar d0 = true := by
    simp only [List.all_cons, Bool.and_eq_true] at hds
    exact hds.1
  have e1 : (ws1 ++ (d0 :: ds') ++ (s1 :: (ms ++ (s2 :: (ys ++ ws2))))).dropWhile isSpaceChar
      = (d0 :: ds') ++ (s1 :: (ms ++ (s2 :: (ys ++ ws2)))) := by
    rw [List.append_assoc, dropWhile_append_of_all hws1]
    simp [List.dropWhile_cons, not_space_of_digit hd0]
  have hsplit := @takeWhile_append_stop isDigitChar (d0 :: ds') s1 (ms ++ (s2 :: (ys ++ ws2)))
    hds (not_digit_of_sep hs1)
  simp only [dobMatch, e1, hsplit.1, hsplit.2]
  rw [dobMonthYear_parts hms hms1 hms2 hs2 hys hysl hws2]
  have hds2' : ds'.length ≤ 1 := by simpa using hds2
  simp [hds1, hds2', hs1]

theorem dobMonthYear_inv {r2 : List Char} {m y : Nat} (h : dobMonthYear r2 = some (m, y)) :
    ∃ ms s2 ys ws2, r2 = ms ++ (s2 :: (ys ++ ws2)) ∧ ms.all isDigitChar = true ∧
      1 ≤ ms.length ∧ ms.length ≤ 2 ∧ isSepChar s2 = true ∧ ys.all isDigitChar = true ∧
      ys.length = 4 ∧ ws2.all isSpaceChar = true ∧ m = digitsToNat ms ∧
      y = digitsToNat ys := by
  unfold dobMonthYear at h
  split at h
  · exact absurd h (by simp)
  · rename_i s2 r4 e
    split at h
    · rename_i hc
      obtain ⟨hm1, hm2, hsep, hy4, hwsp⟩ := hc
      simp only [Option.some.injEq, Prod.mk.injEq] at h
      refine ⟨r2.takeWhile isDigitChar, s2, r4.takeWhile isDigitChar,
        r4.dropWhile isDigitChar, ?_, all_of_takeWhile _ _, hm1, hm2, hsep,
        all_of_takeWhile _ _, hy4, hwsp, h.1.symm, h.2.symm⟩
      rw [List.takeWhile_append_dropWhile, ← e, List.takeWhile_append_dropWhile]
    · exact absurd h (by simp)

theorem dobMatch_inv {cs : List Char} {d m y : Nat} (h : dobMatch cs = some (d, m, y)) :
    ∃ ws1 ds s1 r2, cs = ws1 ++ (ds ++ (s1 :: r2)) ∧ ws1.all isSpaceChar = true ∧
      ds.all isDigitChar = true ∧ 1 ≤ ds.length ∧ ds.length ≤ 2 ∧ isSepChar s1 = true ∧
      d = digitsToNat ds ∧ dobMonthYear r2 = some (m, y) := by
  unfold dobMatch at h
  split at h
  · exact absurd h (by simp)
  · rename_i s1 r2 e
    split at h
    · rename_i hc
      obtain ⟨h1, h2, h3⟩ := hc
      split at h
      · rename_i m' y' e2
        simp only [Option.some.injEq, Prod.mk.injEq] at h
        refine ⟨cs.takeWhile isSpaceChar, (cs.dropWhile isSpaceChar).takeWhile isDigitChar,
          s1, r2, ?_, all_of_takeWhile _ _, all_of_takeWhile _ _, h1, h2, h3,
          h.1.symm, ?_⟩
        · rw [← e, List.takeWhile_append_dropWhile, List.takeWhile_append_dropWhile]
        · rw [e2, h.2.1, h.2.2]
      · exact absurd h (by simp)
    · exact absurd h (by simp)

/-- Successful `parse_dob` output always comes from a regex match and a
valid calendar date. -/
theorem parse_dob_success {s : String} (h : parse_dob s ≠ "") :
    ∃ d m y, dobMatch s.data = some (d, m, y) ∧ datetimeValid y m d = true ∧
      parse_dob s = String.mk (pad2 d ++ ('.' :: (pad2 m ++ ('.' :: decChars y)))) := by
  unfold parse_dob at h
  split at h
  · exact absurd rfl h
  · rename_i d m y e
    split at h
    · rename_i hv
      refine ⟨d, m, y, e, hv, ?_⟩
      unfold parse_dob
      rw [e]
      simp [hv]
    · exact absurd rfl h

theorem daysInMonth_le (y m : Nat) : daysInMonth y m ≤ 31 := by
  unfold daysInMonth
  split
  · split <;> omega
  · split <;> omega

theorem datetimeValid_fields {y m d : Nat} (h : datetimeValid y m d = true) :
    1 ≤ y ∧ y ≤ 9999 ∧ 1 ≤ m ∧ m ≤ 12 ∧ 1 ≤ d ∧ d ≤ 31 := by
  simp only [datetimeValid, Bool.and_eq_true, decide_eq_true_eq] at h
  obtain ⟨⟨⟨⟨⟨h1, h2⟩, h3⟩, h4⟩, h5⟩, h6⟩ := h
  have := daysInMonth_le y m
  exact ⟨h1, h2, h3, h4, h5, by omega⟩

/-! ## Claims about the date parser (C1, C5, C6) -/

/-- Claim C1 (amended): `parse_dob` accepts exactly the claimed shape —
optional whitespace, 1-2 digit day, a separator from the class ". / -",
1-2 digit month, a separator from the same class (not necessarily the
same character), 4-digit year, optional whitespace, with the extracted
(year, month, day) a real calendar date — and on success returns the day
and month zero-padded to two digits joined by "." with the year rendered
as an unpadded decimal. The unpadded year equals the claimed 4-character
`yyyy` field exactly when the year is at least 1000: glibc `strftime`
does not zero-pad `%Y`, so for a year below 1000 the output is NOT the
claimed `dd.mm.yyyy` rendering (see the counterexample). Every string
not of the shape is rejected with `""`. -/
theorem parse_dob_shape_characterization (s : String) :
    (¬ ClaimDobShape s → parse_dob s = "") ∧
    (∀ ws1 ds s1 ms s2 ys ws2,
      s.data = ws1 ++ ds ++ (s1 :: (ms ++ (s2 :: (ys ++ ws2)))) →
      dobShapeParts ws1 ds s1 ms s2 ys ws2 = true →
      parse_dob s = String.mk (pad2 (digitsToNat ds)
        ++ ('.' :: (pad2 (digitsToNat ms) ++ ('.' :: decChars (digitsToNat ys)))))) := by
  constructor
  · intro hn
    by_contra hne
    apply hn
    obtain ⟨d, m, y, e, hv, _⟩ := parse_dob_success hne
    obtain ⟨ws1, ds, s1, r2, hcs, hw1, hd1, hd2, hd3, hd4, hdval, hmy⟩ := dobMatch_inv e
    obtain ⟨ms, s2, ys, ws2, hr2, hm1, hm2, hm3, hm4, hy1, hy2, hw2, hmval, hyval⟩ :=
      dobMonthYear_inv hmy
    refine ⟨ws1, ds, s1, ms, s2, ys, ws2, ?_, ?_⟩
    · rw [hcs, hr2]
      simp [List.append_assoc]
    · have hv' : datetimeValid (digitsToNat ys) (digitsToNat ms) (digitsToNat ds) = true := by
        rw [← hdval, ← hmval, ← hyval]
        exact hv
      simp [dobShapeParts, hw1, hd1, hd2, hd3, hd4, hm1, hm2, hm3, hm4, hy1, hy2, hw2, hv']
  · intro ws1 ds s1 ms s2 ys ws2 heq hparts
    simp only [dobShapeParts, Bool.and_eq_true, decide_eq_true_eq] at hparts
    obtain ⟨⟨⟨⟨⟨⟨⟨⟨⟨⟨⟨⟨hw1, hds⟩, hds1⟩, hds2⟩, hs1⟩, hms⟩, hms1⟩, hms2⟩, hs2⟩, hys⟩,
      hysl⟩, hw2⟩, hv⟩ := hparts
    unfold parse_dob
    rw [heq, dobMatch_parts hw1 hds hds1 hds2 hs1 hms hms1 hms2 hs2 hys hysl hw2]
    simp [hv]

/-- Witness for C1: the shaped input " 7/9-1999 " (mixed separators,
unpadded day and month, surrounding whitespace) is accepted and
normalized to "07.09.1999". -/
theorem parse_dob_shape_characterization_witness : parse_dob " 7/9-1999 " = "07.09.1999" := by
  have h := (parse_dob_shape_characterization " 7/9-1999 ").2
    [' '] ['7'] '/' ['9'] '-' ['1', '9', '9', '9'] [' '] (by decide) (by decide)
  exact h.trans (by decide)

/-- Counterexample to C1 as stated: "01.01.0999" has the claimed shape
(a real calendar date with a 4-digit year field), so the claim demands
the canonical zero-padded output "01.01.0999"; the code returns
"01.01.999" because glibc `%Y` drops the leading zero. -/
theorem parse_dob_year_padding_cex :
    ClaimDobShape "01.01.0999" ∧ claimCanonical 1 1 999 = "01.01.0999"
      ∧ parse_dob "01.01.0999" = "01.01.999"
      ∧ parse_dob "01.01.0999" ≠ claimCanonical 1 1 999 :=
  ⟨⟨[], ['0', '1'], '.', ['0', '1'], '.', ['0', '9', '9', '9'], [], by decide, by decide⟩,
    by decide, by decide, by decide⟩

/-- Claim C5: every input whose digit pattern matches but whose
extracted (year, month, day) triple is not a real calendar date is
rejected (the `datetime` constructor raises and `parse_dob` returns
`""`); in particular the four spec examples — Feb 30, Apr 31, day 0,
month 13 — are all rejected. -/
theorem parse_dob_rejects_unreal_dates :
    (∀ (s : String) (d m y : Nat), dobMatch s.data = some (d, m, y) →
      datetimeValid y m d = false → parse_dob s = "") ∧
    parse_dob "30.02.2020" = "" ∧ parse_dob "31.04.2021" = "" ∧
    parse_dob "00.01.2020" = "" ∧ parse_dob "12.13.2020" = "" := by
  refine ⟨?_, by decide, by decide, by decide, by decide⟩
  intro s d m y h hv
  unfold parse_dob
  rw [h]
  simp [hv]

/-- Witness for C5: the universal rejection applied at "30.02.2020",
whose pattern matches with triple (day 30, month 2, year 2020) but which
is not a real calendar date. -/
theorem parse_dob_rejects_unreal_dates_witness : parse_dob "30.02.2020" = "" :=
  parse_dob_rejects_unreal_dates.1 "30.02.2020" 30 2 2020 (by decide) (by decide)

/-- Claim C6 (amended): re-parsing the parser's own output is a fixed
point whenever the parsed year is at least 1000. (For a year below 1000
the glibc `%Y` rendering drops the leading zeros, the output year is no
longer 4 digits, and re-parsing rejects — see the counterexample.) -/
theorem parse_dob_reparse_fixed_point (s : String) (d m y : Nat)
    (h : dobMatch s.data = some (d, m, y)) (hv : datetimeValid y m d = true)
    (hy : 1000 ≤ y) :
    parse_dob (parse_dob s) = parse_dob s := by
  obtain ⟨hy1, hy2, hm1, hm2, hd1, hd2⟩ := datetimeValid_fields hv
  have hps : parse_dob s = String.mk (pad2 d ++ ('.' :: (pad2 m ++ ('.' :: decChars y)))) := by
    unfold parse_dob
    rw [h]
    simp [hv]
  have hylen : (decChars y).length = 4 := by
    rw [decChars_length 3 y (by norm_num; omega) (by norm_num; omega)]
  have hp := @dobMatch_parts [] (pad2 d) '.' (pad2 m) '.' (decChars y) []
    (by decide) (pad2_all_digit d)
    (by rw [pad2_length (show d < 100 by omega)]; omega)
    (by rw [pad2_length (show d < 100 by omega)])
    (by decide) (pad2_all_digit m)
    (by rw [pad2_length (show m < 100 by omega)]; omega)
    (by rw [pad2_length (show m < 100 by omega)])
    (by decide) (decChars_all_digit y) hylen (by decide)
  have hmatch : dobMatch (pad2 d ++ ('.' :: (pad2 m ++ ('.' :: decChars y)))) = some (d, m, y) := by
    simpa [digitsToNat_pad2, digitsToNat_decChars] using hp
  rw [hps]
  unfold parse_dob
  rw [show (String.mk (pad2 d ++ ('.' :: (pad2 m ++ ('.' :: decChars y))))).data
    = pad2 d ++ ('.' :: (pad2 m ++ ('.' :: decChars y))) from rfl]
  rw [hmatch]
  simp [hv]

/-- Witness for C6: re-parsing the output of "07.09.1999" returns it
unchanged. -/
theorem parse_dob_reparse_fixed_point_witness :
    parse_dob (parse_dob "07.09.1999") = parse_dob "07.09.1999" :=
  parse_dob_reparse_fixed_point "07.09.1999" 7 9 1999 (by decide) (by decide) (by decide)

/-- Counterexample to C6 as stated: "01.01.0999" parses successfully,
but its output "01.01.999" (year unpadded by glibc `%Y`) no longer
matches the 4-digit-year pattern, so re-parsing rejects instead of
returning the same value. -/
theorem parse_dob_reparse_cex :
    parse_dob "01.01.0999" ≠ "" ∧
    parse_dob (parse_dob "01.01.0999") ≠ parse_dob "01.01.0999" := by
  decide

/-! ## Claim C2: the free-text phone validator -/

/-- Claim C2 (amended): the free-text phone check accepts exactly the
trimmed strings made of an optional leading "+", one digit, and at least
six further digits / whitespace / hyphens — that is, a minimum of 7
characters NOT counting the optional "+". (The claim's "minimum total
matched length of 7 characters" would admit "+123456", whose total
length is 7 but which has only five class characters after its leading
digit; the code rejects it — see the counterexample.) "+998901234567"
is accepted; "abc" and "12" are rejected. -/
theorem contact_phone_characterization (t : String) :
    (phoneAccepts t = true ↔
      ∃ c r, (pyStrip t.data = c :: r ∨ pyStrip t.data = '+' :: c :: r) ∧
        isDigitChar c = true ∧ r.all isPhoneTailChar = true ∧ 6 ≤ r.length) ∧
    phoneAccepts "+998901234567" = true ∧ phoneAccepts "abc" = false ∧
    phoneAccepts "12" = false := by
  refine ⟨?_, by decide, by decide, by decide⟩
  unfold phoneAccepts
  constructor
  · intro h
    cases hL : pyStrip t.data with
    | nil => rw [hL] at h; simp [phoneFullmatch] at h
    | cons c r =>
      rw [hL] at h
      by_cases hc : c = '+'
      · subst hc
        have h' : phoneCoreMatch r = true := by simpa [phoneFullmatch] using h
        cases r with
        | nil => simp [phoneCoreMatch] at h'
        | cons c2 r2 =>
          simp only [phoneCoreMatch, Bool.and_eq_true, decide_eq_true_eq] at h'
          exact ⟨c2, r2, Or.inr rfl, h'.1.1, h'.2, h'.1.2⟩
      · have h' : phoneCoreMatch (c :: r) = true := by
          simpa [phoneFullmatch, hc] using h
        simp only [phoneCoreMatch, Bool.and_eq_true, decide_eq_true_eq] at h'
        exact ⟨c, r, Or.inl rfl, h'.1.1, h'.2, h'.1.2⟩
  · rintro ⟨c, r, hL, hdig, hall, hlen⟩
    have hcore : phoneCoreMatch (c :: r) = true := by
      simp only [phoneCoreMatch, Bool.and_eq_true, decide_eq_true_eq]
      exact ⟨⟨hdig, hlen⟩, hall⟩
    cases hL with
    | inl h1 =>
      rw [h1]
      have hne : ¬ c = '+' := fun hcp => absurd (hcp ▸ hdig) (by decide)
      simpa [phoneFullmatch, hne] using hcore
    | inr h2 =>
      rw [h2]
      simpa [phoneFullmatch] using hcore

/-- Witness for C2: "+998901234567" decomposes as the amended grammar
demands. -/
theorem contact_phone_characterization_witness :
    ∃ c r, (pyStrip (String.data "+998901234567") = c :: r ∨
        pyStrip (String.data "+998901234567") = '+' :: c :: r) ∧
      isDigitChar c = true ∧ r.all isPhoneTailChar = true ∧ 6 ≤ r.length :=
  (contact_phone_characterization "+998901234567").1.mp (by decide)

/-- Counterexample to C2 as stated: "+123456" matches the claimed
grammar with total matched length exactly 7, yet the code rejects it
(the `{6,}` quantifier does not count the "+" or the leading digit);
"+1234567" (7 characters after the "+") is the shortest plus-prefixed
accepted form. -/
theorem contact_phone_min_length_cex :
    claimPhoneAccepts "+123456" = true ∧ phoneAccepts "+123456" = false ∧
    phoneAccepts "+1234567" = true := by
  decide

/-! ## State-machine claims (C3, C4, C7, C8, C9, C10) -/

theorem isPrefixOf_append (l r : List Char) : l.isPrefixOf (l ++ r) = true := by
  induction l with
  | nil => simp [List.isPrefixOf]
  | cons a t ih => simp [List.isPrefixOf, ih]

theorem splitOnce_confirmBar (v : List Char) :
    splitOnce '|' ("confirm|".data ++ v) = some ("confirm".data, v) := by
  show splitOnce '|' ('c' :: 'o' :: 'n' :: 'f' :: 'i' :: 'r' :: 'm' :: '|' :: v) = _
  simp [splitOnce]

/-- Claim C3: from CONFIRM, the "no" button returns to REGION with the
session record completely unchanged (so every already-populated field —
locale, region, mode, full name, date of birth, district, phone, appeal
type, appeal text — is retained); and throughout the machine every
session field is written only by its own step's handler, so a field can
change afterwards only when the user re-answers that specific step. -/
theorem confirm_no_returns_to_region_frame (env : Env) (s : Session) :
    (step env .CONFIRM s (.buttonPressed "confirm|no") =
      (.REGION, s, [.answerCallback, .editMessage (promptRegion (s.lang.getD "uz"))])) ∧
    (∀ st ev, ((step env st s ev).2.1.lang = s.lang ∨ st = .LANG) ∧
      ((step env st s ev).2.1.region = s.region ∨ st = .REGION) ∧
      ((step env st s ev).2.1.mode = s.mode ∨ st = .MODE) ∧
      ((step env st s ev).2.1.full_name = s.full_name ∨ st = .NAME) ∧
      ((step env st s ev).2.1.dob = s.dob ∨ st = .DOB) ∧
      ((step env st s ev).2.1.district = s.district ∨ st = .DISTRICT) ∧
      ((step env st s ev).2.1.phone = s.phone ∨ st = .CONTACT) ∧
      ((step env st s ev).2.1.appeal_type = s.appeal_type ∨ st = .ATYPE) ∧
      ((step env st s ev).2.1.content = s.content ∨ st = .CONTENT)) := by
  constructor
  · rfl
  · intro st ev
    cases st <;> cases ev <;>
      simp only [step, Handlers.start, Handlers.cancel, Handlers.choose_lang,
        Handlers.choose_region, Handlers.choose_mode, Handlers.full_name, Handlers.dob,
        Handlers.district, Handlers.contact, Handlers.choose_atype, Handlers.content,
        Handlers.confirm] <;>
      (repeat' split) <;>
      simp

/-- Claim C4: from every non-terminal state, the /cancel fallback ends
the conversation emitting only the localized "cancelled" reply — no call
to the primary sink (`save_row`), the mirror sink (`try_gs_save_row`) or
the notifier (`notify_admins`). -/
theorem cancel_reaches_end_without_sinks (env : Env) (st : BotState) (s : Session)
    (h : st ≠ .END) :
    step env st s .cancelCmd = (.END, s, [.reply (cancelText (s.lang.getD "uz"))]) ∧
    ∀ e ∈ (step env st s .cancelCmd).2.2,
      (∀ r, e ≠ .saveRow r) ∧ (∀ sh r, e ≠ .gsSaveRow sh r) ∧ (∀ tx, e ≠ .notifyAdmins tx) := by
  have h1 : step env st s .cancelCmd = (.END, s, [.reply (cancelText (s.lang.getD "uz"))]) := by
    unfold step
    rw [if_neg h]
    rfl
  refine ⟨h1, ?_⟩
  rw [h1]
  intro e he
  simp only [List.mem_singleton] at he
  subst he
  refine ⟨?_, ?_, ?_⟩ <;> intros <;> simp

/-- Witness for C4 at the CONFIRM state with an empty session. -/
theorem cancel_reaches_end_without_sinks_witness :
    step envEx .CONFIRM {} .cancelCmd = (.END, {}, [.reply (cancelText "uz")]) :=
  (cancel_reaches_end_without_sinks envEx .CONFIRM {} (by decide)).1

/-- Claim C7: at CONTACT, a structured contact-share is accepted and its
number stored verbatim — no trimming, no grammar check — and the
dialogue advances to the appeal-type step. (The hypothesis `p ≠ ""`
reflects the Telegram Bot API, where a contact's `phone_number` is a
required non-empty field; the handler checks exactly this truthiness.) -/
theorem contact_share_stored_verbatim (env : Env) (s : Session) (p : String) (hp : p ≠ "") :
    step env .CONTACT s (.contactShared p) =
      (.ATYPE, { s with phone := some p }, [.reply (promptAtype (s.lang.getD "uz"))]) := by
  unfold step
  rw [if_neg (by decide : ¬ (BotState.CONTACT = .END))]
  show Handlers.contact (.contactShared p) s = _
  unfold Handlers.contact
  simp [hp]

/-- Witness for C7: a formatted shared number is stored exactly as sent. -/
theorem contact_share_stored_verbatim_witness :
    step envEx .CONTACT {} (.contactShared "+998 90 111-22-33") =
      (.ATYPE, { phone := some "+998 90 111-22-33" },
        [.reply (promptAtype (({} : Session).lang.getD "uz"))]) :=
  contact_share_stored_verbatim envEx {} "+998 90 111-22-33" (by decide)

/-- Claim C8: invalid input at a validating step — an unparseable date at
DOB, non-matching free text at CONTACT — leaves the state and the whole
session unchanged (in particular the `dob` / `phone` fields keep their
prior values) and emits only the localized error reply; and since no
retry counter exists anywhere in the state, invalid input can be
resubmitted indefinitely. -/
theorem invalid_input_no_advance (env : Env) (s : Session) :
    (∀ t, parse_dob t = "" →
      step env .DOB s (.textMsg t) = (.DOB, s, [.reply (errDob (s.lang.getD "uz"))])) ∧
    (∀ t, phoneFullmatch (pyStrip t.data) = false →
      step env .CONTACT s (.textMsg t) =
        (.CONTACT, s, [.reply (errContact (s.lang.getD "uz"))])) ∧
    (∀ ts : List String, (∀ t ∈ ts, parse_dob t = "") →
      runTexts env (.DOB, s) ts = (.DOB, s)) := by
  have hdob : ∀ t, parse_dob t = "" →
      step env .DOB s (.textMsg t) = (.DOB, s, [.reply (errDob (s.lang.getD "uz"))]) := by
    intro t ht
    unfold step
    rw [if_neg (by decide : ¬ (BotState.DOB = .END))]
    show Handlers.dob t s = _
    unfold Handlers.dob
    rw [if_pos ht]
  refine ⟨hdob, ?_, ?_⟩
  · intro t ht
    unfold step
    rw [if_neg (by decide : ¬ (BotState.CONTACT = .END))]
    show Handlers.contact (.textMsg t) s = _
    unfold Handlers.contact
    simp [ht]
  · intro ts hts
    induction ts with
    | nil => rfl
    | cons t ts ih =>
      rw [runTexts, hdob t (hts t (by simp))]
      exact ih (fun t' ht' => hts t' (by simp [ht']))

/-- Witness for C8: "31.02.2020" (not a real date) is refused at DOB
with the session untouched, twice in a row. -/
theorem invalid_input_no_advance_witness :
    step envEx .DOB {} (.textMsg "31.02.2020") =
      (.DOB, {}, [.reply (errDob (({} : Session).lang.getD "uz"))]) ∧
    runTexts envEx (.DOB, {}) ["31.02.2020", "abc"] = (.DOB, {}) :=
  ⟨(invalid_input_no_advance envEx {}).1 "31.02.2020" (by decide),
    (invalid_input_no_advance envEx {}).2.2 ["31.02.2020", "abc"] (by decide)⟩

/-- Claim C9: at confirmation-accept, whatever diagnostic string the
mirror call `try_gs_save_row` returned (that function catches every
exception and returns the error as text, so its outcome is always just a
string), the submission still completes: the primary `save_row` fires,
the operators are notified with the Sheets diagnostic appended exactly
when it is non-empty, and the user receives the fixed thank-you message,
which never exposes the diagnostic. -/
theorem mirror_failure_nonfatal (env : Env) (s : Session) (gsErr : String) :
    step { env with gsResult := gsErr } .CONFIRM s (.buttonPressed "confirm|yes") =
      (.END, s,
        [.answerCallback,
         .saveRow (mkRow { env with gsResult := gsErr } (s.lang.getD "uz") s),
         .gsSaveRow env.sheetsName (mkRow { env with gsResult := gsErr } (s.lang.getD "uz") s),
         .notifyAdmins (noteText (s.lang.getD "uz") ++ format_summary (s.lang.getD "uz") s
           ++ (if gsErr = "" then "" else "\n⚠️ Sheets: " ++ gsErr)),
         .editMessage (thanksText (s.lang.getD "uz"))]) := by
  rfl

/-- Claim C10: every CONFIRM payload "confirm|v" with v ≠ "no" — not
only "yes" — takes the acceptance branch (row built, saved, mirrored,
operators notified, thank-you sent, conversation ends); only the exact
value "no" takes the edit branch back to REGION. -/
theorem confirm_non_no_accepts (env : Env) (s : Session) (v : List Char)
    (hv : v ≠ ['n', 'o']) :
    step env .CONFIRM s (.buttonPressed (String.mk ("confirm|".data ++ v))) =
      (.END, s,
        [.answerCallback,
         .saveRow (mkRow env (s.lang.getD "uz") s),
         .gsSaveRow env.sheetsName (mkRow env (s.lang.getD "uz") s),
         .notifyAdmins (noteText (s.lang.getD "uz") ++ format_summary (s.lang.getD "uz") s
           ++ (if env.gsResult = "" then "" else "\n⚠️ Sheets: " ++ env.gsResult)),
         .editMessage (thanksText (s.lang.getD "uz"))]) ∧
    step env .CONFIRM s (.buttonPressed "confirm|no") =
      (.REGION, s, [.answerCallback, .editMessage (promptRegion (s.lang.getD "uz"))]) := by
  constructor
  · have hv' : ¬ v = "no".data := hv
    have hpre : hasLit "confirm|".data (String.mk ("confirm|".data ++ v)).data = true :=
      isPrefixOf_append "confirm|".data v
    unfold step
    rw [if_neg (by decide : ¬ (BotState.CONFIRM = .END))]
    show (if hasLit "confirm|".data (String.mk ("confirm|".data ++ v)).data
        then Handlers.confirm env (String.mk ("confirm|".data ++ v)) s
        else (.CONFIRM, s, [])) = _
    rw [if_pos hpre]
    unfold Handlers.confirm
    rw [show (String.mk ("confirm|".data ++ v)).data = "confirm|".data ++ v from rfl,
      splitOnce_confirmBar]
    simp [hv']
  · rfl

/-- Witness for C10: the payload "confirm|maybe" is treated as
acceptance. -/
theorem confirm_non_no_accepts_witness :
    step envEx .CONFIRM {} (.buttonPressed (String.mk ("confirm|".data ++ ['m', 'a', 'y', 'b', 'e']))) =
      (.END, ({} : Session),
        [.answerCallback,
         .saveRow (mkRow envEx (({} : Session).lang.getD "uz") {}),
         .gsSaveRow envEx.sheetsName (mkRow envEx (({} : Session).lang.getD "uz") {}),
         .notifyAdmins (noteText (({} : Session).lang.getD "uz")
           ++ format_summary (({} : Session).lang.getD "uz") {}
           ++ (if envEx.gsResult = "" then "" else "\n⚠️ Sheets: " ++ envEx.gsResult)),
         .editMessage (thanksText (({} : Session).lang.getD "uz"))]) :=
  (confirm_non_no_accepts envEx {} ['m', 'a', 'y', 'b', 'e'] (by decide)).1

end SayyorBot
